import Mathlib

/-!
Shallow embedding of the inventory-aware product repository
(src/repositories/product.repositories.js): Products, Inventory and Shops
tables, soft-delete visibility rules, paginated and searchable listing,
availability checks, and the transactional multi-table soft delete.

The database is a triple of row lists.  Each repository method is embedded
as a pure function over that state; the SQL of each method is translated
clause by clause (joins as list products, WHERE as a Boolean filter,
ORDER BY as a merge sort, OFFSET/FETCH as drop/take).  Fallible methods
return an `Except` next to the resulting state.  Storage-engine failures
that the JavaScript code only observes through thrown errors are injected
through explicit failure parameters.
-/

/-- Row of the Products table. -/
structure ProductRow where
  product_id : Int
  name : String
  description : Option String
  Base_Price : Int
  image_url : Option String
  created_at : Int
  deleted_at : Option Int
  is_deleted : Bool
deriving DecidableEq, Repr

/-- Row of the Inventory table. -/
structure InventoryRow where
  id : Int
  shop_id : Int
  product_id : Int
  stock_quantity : Int
  selling_price : Int
  unit : String
  is_deleted : Bool
  deleted_at : Option Int
deriving DecidableEq, Repr

/-- Row of the Shops table. -/
structure ShopRow where
  shop_id : Int
  name : String
  is_active : Bool
  is_deleted : Bool
deriving DecidableEq, Repr

/-- The visible state of the store: the three tables the repository touches. -/
structure DB where
  products : List ProductRow
  inventory : List InventoryRow
  shops : List ShopRow
deriving DecidableEq, Repr

/-- A JavaScript error value as the repository distinguishes them: a bare
`new Error(message)` has no `number` property, an error surfaced by the
mssql driver carries the numeric error code of the storage engine. -/
inductive JsError where
  | plain (message : String)
  | sqlErr (number : Int) (message : String)
deriving DecidableEq, Repr

/-- The `number` property read by `error.number === 2627`:
`undefined` (here `none`) on a plain error. -/
def JsError.errNumber : JsError → Option Int
  | .plain _ => none
  | .sqlErr n _ => some n

/-- JavaScript truthiness of an optional numeric parameter whose default is
`null`: `null` and `0` are falsy. -/
def truthyNum : Option Int → Bool
  | none => false
  | some n => n != 0

/-- JavaScript truthiness of a string parameter: only the empty string is falsy. -/
def truthyStr (s : String) : Bool := s != ""

/-- SQL `LIKE` with a percent-wrapped pattern under the case-insensitive
default collation: case-insensitive substring containment. -/
def likeContains (pat txt : String) : Bool :=
  let p := pat.toLower.data
  let t := txt.toLower.data
  (List.range (t.length + 1)).any (fun k => List.isPrefixOf p (t.drop k))

/-- `LIKE` against a nullable column: `NULL LIKE pattern` is not true. -/
def likeContainsOpt (pat : String) : Option String → Bool
  | none => false
  | some t => likeContains pat t

/-- Result of the `_paginate` helper. -/
structure Paginated where
  safePage : ℚ
  safeLimit : ℚ
  offset : ℚ
deriving DecidableEq, Repr

/-- `_paginate(page, limit)`: `safePage = Math.max(1, page)`,
`safeLimit = Math.min(100, Math.max(1, limit))`,
`offset = (safePage - 1) * safeLimit`. -/
def _paginate (page limit : ℚ) : Paginated :=
  let safePage := max 1 page
  let safeLimit := min 100 (max 1 limit)
  { safePage := safePage, safeLimit := safeLimit, offset := (safePage - 1) * safeLimit }

/-- All triples of the three-way `Products INNER JOIN Inventory INNER JOIN Shops`
product, before any join or WHERE condition is applied. -/
def allTriples (db : DB) : List (ProductRow × InventoryRow × ShopRow) :=
  db.products.flatMap (fun p => db.inventory.flatMap (fun i => db.shops.map (fun s => (p, i, s))))

/-- The combined join and WHERE predicate of both `findAll` queries:
`p.product_id = i.product_id`, `i.shop_id = s.shop_id`,
`p.is_deleted = 0 AND i.is_deleted = 0 AND s.is_deleted = 0 AND s.is_active = 1`,
plus `i.shop_id = @shop_id` when `shop_id` is truthy and the
`name LIKE @search OR description LIKE @search` clause when `search` is truthy. -/
def findAllPred (shop_id : Option Int) (search : String)
    (t : ProductRow × InventoryRow × ShopRow) : Bool :=
  t.1.product_id == t.2.1.product_id &&
  t.2.1.shop_id == t.2.2.shop_id &&
  !t.1.is_deleted && !t.2.1.is_deleted && !t.2.2.is_deleted && t.2.2.is_active &&
  (!truthyNum shop_id || t.2.1.shop_id == shop_id.getD 0) &&
  (!truthyStr search || (likeContains search t.1.name || likeContainsOpt search t.1.description))

/-- The joined rows matching the WHERE clause of `findAll`. -/
def findAllTriples (db : DB) (shop_id : Option Int) (search : String) :
    List (ProductRow × InventoryRow × ShopRow) :=
  (allTriples db).filter (findAllPred shop_id search)

/-- Shape of one row of the joined SELECT lists (`findAll` data query and
`findById` with a shop).  Inventory and shop columns are nullable because the
single-product query reaches them through LEFT JOINs. -/
structure JoinedRow where
  product_id : Int
  name : String
  description : Option String
  Base_Price : Int
  image_url : Option String
  created_at : Int
  inventory_id : Option Int
  shop_id : Option Int
  stock_quantity : Option Int
  selling_price : Option Int
  unit : Option String
  shop_name : Option String
deriving DecidableEq, Repr

/-- SELECT list of the `findAll` data query applied to one joined triple. -/
def mkListedRow (t : ProductRow × InventoryRow × ShopRow) : JoinedRow :=
  { product_id := t.1.product_id, name := t.1.name, description := t.1.description,
    Base_Price := t.1.Base_Price, image_url := t.1.image_url, created_at := t.1.created_at,
    inventory_id := some t.2.1.id, shop_id := some t.2.1.shop_id,
    stock_quantity := some t.2.1.stock_quantity, selling_price := some t.2.1.selling_price,
    unit := some t.2.1.unit, shop_name := some t.2.2.name }

/-- Pagination metadata returned by `findAll`. -/
structure PaginationMeta where
  total : Nat
  page : ℚ
  limit : ℚ
  totalPages : Int
deriving DecidableEq, Repr

/-- Return shape of `findAll`. -/
structure FindAllResult where
  products : List JoinedRow
  pagination : PaginationMeta
deriving DecidableEq, Repr

/-- `findAll({page, limit, search, shop_id})`: count of distinct matching
product ids, then one page of joined rows ordered by `p.created_at DESC`
with `OFFSET @offset ROWS FETCH NEXT @limit ROWS ONLY`. -/
def findAll (db : DB) (page limit : ℚ) (search : String) (shop_id : Option Int) :
    FindAllResult :=
  let pg := _paginate page limit
  let ts := findAllTriples db shop_id search
  let total := (ts.map (fun t => t.1.product_id)).dedup.length
  let sorted := ts.mergeSort (fun a b => decide (b.1.created_at ≤ a.1.created_at))
  let pageRows := (sorted.drop pg.offset.floor.toNat).take pg.safeLimit.floor.toNat
  { products := pageRows.map mkListedRow,
    pagination := { total := total, page := pg.safePage, limit := pg.safeLimit,
                    totalPages := Int.ceil ((total : ℚ) / pg.safeLimit) } }

/-- `findAll` as it would read with the search clause absent from the SQL text
altogether (the spec phrase: no search filter at all).  Identical to `findAll`
except that `findAllPred` loses its final conjunct. -/
def findAllNoSearchPred (shop_id : Option Int)
    (t : ProductRow × InventoryRow × ShopRow) : Bool :=
  t.1.product_id == t.2.1.product_id &&
  t.2.1.shop_id == t.2.2.shop_id &&
  !t.1.is_deleted && !t.2.1.is_deleted && !t.2.2.is_deleted && t.2.2.is_active &&
  (!truthyNum shop_id || t.2.1.shop_id == shop_id.getD 0)

/-- `findAll` with no search filter at all; compared against `findAll` with an
empty search string in claim C10. -/
def findAllNoSearch (db : DB) (page limit : ℚ) (shop_id : Option Int) : FindAllResult :=
  let pg := _paginate page limit
  let ts := (allTriples db).filter (findAllNoSearchPred shop_id)
  let total := (ts.map (fun t => t.1.product_id)).dedup.length
  let sorted := ts.mergeSort (fun a b => decide (b.1.created_at ≤ a.1.created_at))
  let pageRows := (sorted.drop pg.offset.floor.toNat).take pg.safeLimit.floor.toNat
  { products := pageRows.map mkListedRow,
    pagination := { total := total, page := pg.safePage, limit := pg.safeLimit,
                    totalPages := Int.ceil ((total : ℚ) / pg.safeLimit) } }

/-- SELECT list of the bare single-product query (`findById` without a shop). -/
structure BareProductRecord where
  product_id : Int
  name : String
  description : Option String
  Base_Price : Int
  image_url : Option String
  created_at : Int
deriving DecidableEq, Repr

/-- `findById` returns rows of two different shapes depending on whether a
shop id was supplied. -/
inductive FindByIdResult where
  | withShop (r : JoinedRow)
  | bare (r : BareProductRecord)
deriving DecidableEq, Repr

/-- SQL LEFT JOIN of two row lists under an ON condition: every left row
survives, paired with each matching right row, or with `none` when no right
row matches. -/
def leftJoin {α β : Type} (l : List α) (r : List β) (onCond : α → β → Bool) :
    List (α × Option β) :=
  l.flatMap (fun a =>
    match r.filter (fun b => onCond a b) with
    | [] => [(a, none)]
    | bs => bs.map (fun b => (a, some b)))

/-- The ON condition of the second LEFT JOIN of `findById`:
`i.shop_id = s.shop_id`, never true when the inventory side is NULL. -/
def invShopJoinCond (x : ProductRow × Option InventoryRow) (s : ShopRow) : Bool :=
  match x.2 with
  | some i => i.shop_id == s.shop_id
  | none => false

/-- The WHERE clause `s.is_deleted = 0 OR s.shop_id IS NULL` applied to the
nullable shop column of one joined row. -/
def shopNotDeletedClause : Option ShopRow → Bool
  | some s => !s.is_deleted
  | none => true

/-- The row set of the `findById` query with a shop:
`Products LEFT JOIN Inventory ON p.product_id = i.product_id AND
i.shop_id = @shopId AND i.is_deleted = 0`, then
`LEFT JOIN Shops s ON i.shop_id = s.shop_id` (null inventory matches no shop),
filtered by `p.product_id = @productId AND p.is_deleted = 0 AND
(s.is_deleted = 0 OR s.shop_id IS NULL)`. -/
def findByIdJoinedRows (db : DB) (productId shopId : Int) :
    List (ProductRow × Option InventoryRow × Option ShopRow) :=
  let pi := leftJoin db.products db.inventory
    (fun p i => p.product_id == i.product_id && i.shop_id == shopId && !i.is_deleted)
  let pis := leftJoin pi db.shops invShopJoinCond
  (pis.map (fun x => (x.1.1, x.1.2, x.2))).filter
    (fun t => t.1.product_id == productId && !t.1.is_deleted && shopNotDeletedClause t.2.2)

/-- SELECT list of the shop-mode `findById` query applied to one joined row. -/
def mkDetailRow (t : ProductRow × Option InventoryRow × Option ShopRow) : JoinedRow :=
  { product_id := t.1.product_id, name := t.1.name, description := t.1.description,
    Base_Price := t.1.Base_Price, image_url := t.1.image_url, created_at := t.1.created_at,
    inventory_id := t.2.1.map (fun i => i.id), shop_id := t.2.1.map (fun i => i.shop_id),
    stock_quantity := t.2.1.map (fun i => i.stock_quantity),
    selling_price := t.2.1.map (fun i => i.selling_price),
    unit := t.2.1.map (fun i => i.unit), shop_name := t.2.2.map (fun s => s.name) }

/-- `findById(productId, shopId)`: with a truthy `shopId` the LEFT JOIN query,
otherwise the bare product query; `result.recordset[0] || null` becomes
`head?`. -/
def findById (db : DB) (productId : Int) (shopId : Option Int) : Option FindByIdResult :=
  if truthyNum shopId then
    ((findByIdJoinedRows db productId (shopId.getD 0)).head?).map
      (fun t => FindByIdResult.withShop (mkDetailRow t))
  else
    ((db.products.filter (fun p => p.product_id == productId && !p.is_deleted)).head?).map
      (fun p => FindByIdResult.bare
        { product_id := p.product_id, name := p.name, description := p.description,
          Base_Price := p.Base_Price, image_url := p.image_url, created_at := p.created_at })

/-- Return shape of `checkAvailability`. -/
structure AvailabilityResult where
  «exists» : Bool
  available : Bool
  stock_quantity : Int
deriving DecidableEq, Repr

/-- All triples of `Inventory INNER JOIN Products INNER JOIN Shops`
(the join order of the `checkAvailability` query). -/
def availTriples (db : DB) : List (InventoryRow × ProductRow × ShopRow) :=
  db.inventory.flatMap (fun i => db.products.flatMap (fun p => db.shops.map (fun s => (i, p, s))))

/-- Join and WHERE predicate of the `checkAvailability` query:
`p.product_id = i.product_id`, `s.shop_id = i.shop_id`,
`p.product_id = @productId AND i.shop_id = @shopId AND p.is_deleted = 0 AND
i.is_deleted = 0 AND s.is_active = 1 AND s.is_deleted = 0`. -/
def checkAvailabilityPred (productId shopId : Int)
    (t : InventoryRow × ProductRow × ShopRow) : Bool :=
  t.2.1.product_id == t.1.product_id &&
  t.2.2.shop_id == t.1.shop_id &&
  t.2.1.product_id == productId &&
  t.1.shop_id == shopId &&
  !t.2.1.is_deleted && !t.1.is_deleted && t.2.2.is_active && !t.2.2.is_deleted

/-- `checkAvailability(productId, shopId)`: `null` when no row matches,
otherwise `{exists: true, available: stock_quantity > 0, stock_quantity}`
from the first row. -/
def checkAvailability (db : DB) (productId shopId : Int) : Option AvailabilityResult :=
  match ((availTriples db).filter (checkAvailabilityPred productId shopId)).head? with
  | none => none
  | some t => some { «exists» := true, available := decide (0 < t.1.stock_quantity),
                     stock_quantity := t.1.stock_quantity }

/-- The partial-update payload of `update`: a field is `none` when the
JavaScript property is `undefined` (absent).  A present-but-null description
is `some none`. -/
structure UpdateData where
  name : Option String
  description : Option (Option String)
  Base_Price : Option Int
deriving DecidableEq, Repr

/-- Apply the present fields of the payload to a product row
(the `SET` clause built from the `updates` array). -/
def applyUpdate (data : UpdateData) (p : ProductRow) : ProductRow :=
  let p1 := match data.name with
    | some n => { p with name := n }
    | none => p
  let p2 := match data.description with
    | some d => { p1 with description := d }
    | none => p1
  match data.Base_Price with
  | some b => { p2 with Base_Price := b }
  | none => p2

/-- `updates.length` is nonzero: at least one of the three fields is present. -/
def updatesNonempty (data : UpdateData) : Bool :=
  data.name.isSome || data.description.isSome || data.Base_Price.isSome

/-- `update(productId, data)`: throws `No fields to update` when no field is
present (re-thrown by the catch block with the same message); otherwise
updates every row with `product_id = @productId AND is_deleted = 0` and
returns the first updated row (`OUTPUT INSERTED.*`, `recordset[0] || null`)
next to the new state. -/
def update (db : DB) (productId : Int) (data : UpdateData) :
    Except JsError (Option ProductRow) × DB :=
  if updatesNonempty data then
    let affected := db.products.filter (fun p => p.product_id == productId && !p.is_deleted)
    let newProducts := db.products.map (fun p =>
      if p.product_id == productId && !p.is_deleted then applyUpdate data p else p)
    (Except.ok (affected.head?.map (applyUpdate data)), { db with products := newProducts })
  else
    (Except.error (JsError.plain "No fields to update"), db)

/-- Outcome of the awaited INSERT inside `addToInventory`: either the inserted
row or a thrown storage error. -/
inductive InsertOutcome where
  | ok (row : InventoryRow)
  | err (e : JsError)
deriving DecidableEq, Repr

/-- Modelled from the spec: the storage layer enforces at most one active
inventory row per `(shop_id, product_id)` pair with a uniqueness constraint,
and a violating insert fails with engine error number 2627 (the code the
catch block of `addToInventory` tests for).  The insert itself is not in the
given source; only its caller and catch block are. -/
def insertInventory (db : DB) (shopId productId stock_quantity selling_price : Int)
    (unit : String) (newId : Int) : InsertOutcome :=
  if db.inventory.any (fun i => i.shop_id == shopId && i.product_id == productId && !i.is_deleted)
  then InsertOutcome.err (JsError.sqlErr 2627 "Violation of UNIQUE KEY constraint")
  else InsertOutcome.ok
    { id := newId, shop_id := shopId, product_id := productId,
      stock_quantity := stock_quantity, selling_price := selling_price,
      unit := unit, is_deleted := false, deleted_at := none }

/-- The catch block of `addToInventory`: translate engine error 2627 into the
domain failure `Product already exists in inventory`, re-raise every other
error unchanged, and pass a successful insert through. -/
def addToInventory (outcome : InsertOutcome) : Except JsError InventoryRow :=
  match outcome with
  | InsertOutcome.ok r => Except.ok r
  | InsertOutcome.err e =>
    if e.errNumber == some 2627 then
      Except.error (JsError.plain "Product already exists in inventory")
    else
      Except.error e

/-- Which statement of the `softDelete` transaction throws, if any, and with
which error.  `noFailure` is the run in which every awaited statement and the
commit succeed. -/
inductive SoftDeleteFailure where
  | noFailure
  | onInventoryUpdate (e : JsError)
  | onProductUpdate (e : JsError)
  | onCommit (e : JsError)
deriving DecidableEq, Repr

/-- The error thrown inside the transaction, when there is one. -/
def SoftDeleteFailure.thrown : SoftDeleteFailure → Option JsError
  | .noFailure => none
  | .onInventoryUpdate e => some e
  | .onProductUpdate e => some e
  | .onCommit e => some e

/-- First statement of the transaction: soft-delete every active inventory row
of the product (`SET is_deleted = 1, deleted_at = GETDATE() WHERE
product_id = @productId AND is_deleted = 0`). -/
def softDeleteInventoryStep (db : DB) (now productId : Int) : DB :=
  { db with inventory := db.inventory.map (fun i =>
      if i.product_id == productId && !i.is_deleted then
        { i with is_deleted := true, deleted_at := some now } else i) }

/-- Second statement: soft-delete the product row itself if still active, and
return the `OUTPUT INSERTED.product_id` recordset next to the new state. -/
def softDeleteProductStep (db : DB) (now productId : Int) : List Int × DB :=
  ((db.products.filter (fun p => p.product_id == productId && !p.is_deleted)).map
      (fun p => p.product_id),
   { db with products := db.products.map (fun p =>
      if p.product_id == productId && !p.is_deleted then
        { p with is_deleted := true, deleted_at := some now } else p) })

/-- `softDelete(productId)`: run both statements inside one transaction and
commit, returning `recordset.length > 0`; on any thrown error, roll back (the
observable state is the pre-transaction one) and re-raise the same error. -/
def softDelete (db : DB) (now productId : Int) (f : SoftDeleteFailure) :
    Except JsError Bool × DB :=
  match f with
  | SoftDeleteFailure.onInventoryUpdate e => (Except.error e, db)
  | SoftDeleteFailure.onProductUpdate e =>
    let _txdb1 := softDeleteInventoryStep db now productId
    (Except.error e, db)
  | SoftDeleteFailure.onCommit e =>
    let txdb1 := softDeleteInventoryStep db now productId
    let _step2 := softDeleteProductStep txdb1 now productId
    (Except.error e, db)
  | SoftDeleteFailure.noFailure =>
    let txdb1 := softDeleteInventoryStep db now productId
    let step2 := softDeleteProductStep txdb1 now productId
    (Except.ok (decide (0 < step2.1.length)), step2.2)

/-! ### Helper lemmas about the embedded queries -/

theorem mem_allTriples {db : DB} {t : ProductRow × InventoryRow × ShopRow} :
    t ∈ allTriples db ↔ t.1 ∈ db.products ∧ t.2.1 ∈ db.inventory ∧ t.2.2 ∈ db.shops := by
  obtain ⟨p, i, s⟩ := t
  simp only [allTriples, List.mem_flatMap, List.mem_map, Prod.mk.injEq]
  constructor
  · rintro ⟨a, ha, b, hb, c, hc, rfl, rfl, rfl⟩
    exact ⟨ha, hb, hc⟩
  · rintro ⟨hp, hi, hs⟩
    exact ⟨p, hp, i, hi, s, hs, rfl, rfl, rfl⟩

theorem mem_availTriples {db : DB} {t : InventoryRow × ProductRow × ShopRow} :
    t ∈ availTriples db ↔ t.1 ∈ db.inventory ∧ t.2.1 ∈ db.products ∧ t.2.2 ∈ db.shops := by
  obtain ⟨i, p, s⟩ := t
  simp only [availTriples, List.mem_flatMap, List.mem_map, Prod.mk.injEq]
  constructor
  · rintro ⟨a, ha, b, hb, c, hc, rfl, rfl, rfl⟩
    exact ⟨ha, hb, hc⟩
  · rintro ⟨hi, hp, hs⟩
    exact ⟨i, hi, p, hp, s, hs, rfl, rfl, rfl⟩

theorem leftJoin_mem {α β : Type} {l : List α} {r : List β} {f : α → β → Bool}
    {x : α × Option β} (h : x ∈ leftJoin l r f) :
    x.1 ∈ l ∧ (x.2 = none ∨ ∃ b ∈ r, x.2 = some b ∧ f x.1 b = true) := by
  simp only [leftJoin, List.mem_flatMap] at h
  obtain ⟨a, ha, hx⟩ := h
  cases hfil : r.filter (fun b => f a b) with
  | nil =>
    rw [hfil] at hx
    simp only [List.mem_singleton] at hx
    subst hx
    exact ⟨ha, Or.inl rfl⟩
  | cons b bs =>
    rw [hfil] at hx
    simp only [List.mem_map] at hx
    obtain ⟨b0, hb0, rfl⟩ := hx
    have hb0f : b0 ∈ r.filter (fun b => f a b) := by rw [hfil]; exact hb0
    have := List.mem_filter.mp hb0f
    exact ⟨ha, Or.inr ⟨b0, this.1, rfl, this.2⟩⟩

theorem leftJoin_exists {α β : Type} {l : List α} {r : List β} {f : α → β → Bool}
    {a : α} (h : a ∈ l) :
    ∃ ob, (a, ob) ∈ leftJoin l r f ∧ ∀ b, ob = some b → b ∈ r ∧ f a b = true := by
  cases hfil : r.filter (fun b => f a b) with
  | nil =>
    refine ⟨none, ?_, by intro b hb; cases hb⟩
    apply List.mem_flatMap_of_mem h
    rw [hfil]
    simp
  | cons b bs =>
    have hbf : b ∈ r.filter (fun x => f a x) := by rw [hfil]; exact List.mem_cons_self b bs
    have hb := List.mem_filter.mp hbf
    refine ⟨some b, ?_, ?_⟩
    · apply List.mem_flatMap_of_mem h
      rw [hfil]
      simp
    · intro b0 hb0
      cases hb0
      exact hb

theorem invShopJoinCond_some {x : ProductRow × Option InventoryRow} {s : ShopRow}
    (h : invShopJoinCond x s = true) : ∃ i, x.2 = some i ∧ i.shop_id = s.shop_id := by
  unfold invShopJoinCond at h
  cases hx : x.2 with
  | none => rw [hx] at h; cases h
  | some i =>
    rw [hx] at h
    exact ⟨i, rfl, by simpa using h⟩

theorem shopNotDeletedClause_of (o : Option ShopRow)
    (h : ∀ s, o = some s → s.is_deleted = false) : shopNotDeletedClause o = true := by
  cases o with
  | none => rfl
  | some s => simp [shopNotDeletedClause, h s rfl]

theorem filter_length_pos_iff {α : Type} {l : List α} {p : α → Bool} :
    0 < (l.filter p).length ↔ ∃ a ∈ l, p a = true := by
  rw [List.length_pos]
  constructor
  · intro h
    rcases hfil : l.filter p with _ | ⟨a, as⟩
    · exact absurd hfil h
    · have : a ∈ l.filter p := by rw [hfil]; exact List.mem_cons_self a as
      have := List.mem_filter.mp this
      exact ⟨a, this.1, this.2⟩
  · rintro ⟨a, ha, hpa⟩
    exact List.ne_nil_of_mem (List.mem_filter.mpr ⟨ha, hpa⟩)

theorem checkAvailability_none_iff {db : DB} {pid sid : Int} :
    checkAvailability db pid sid = none ↔
      ∀ t ∈ availTriples db, ¬(checkAvailabilityPred pid sid t = true) := by
  simp only [checkAvailability]
  cases h : ((availTriples db).filter (checkAvailabilityPred pid sid)).head? with
  | none =>
    simp only [h]
    rw [List.head?_eq_none_iff, List.filter_eq_nil_iff] at h
    simpa using h
  | some t =>
    simp only [h]
    rw [List.head?_eq_some_iff] at h
    obtain ⟨ys, hys⟩ := h
    have ht : t ∈ (availTriples db).filter (checkAvailabilityPred pid sid) := by
      rw [hys]; exact List.mem_cons_self t ys
    have := List.mem_filter.mp ht
    constructor
    · intro hcontra; cases hcontra
    · intro hall
      exact absurd this.2 (hall t this.1)

theorem mem_findAll_products {db : DB} {page limit : ℚ} {search : String}
    {shop_id : Option Int} {r : JoinedRow}
    (h : r ∈ (findAll db page limit search shop_id).products) :
    ∃ t, t ∈ allTriples db ∧ findAllPred shop_id search t = true ∧ r = mkListedRow t := by
  simp only [findAll, List.mem_map] at h
  obtain ⟨t, ht, rfl⟩ := h
  have h1 : t ∈ (findAllTriples db shop_id search).mergeSort
      (fun a b => decide (b.1.created_at ≤ a.1.created_at)) :=
    List.mem_of_mem_drop (List.mem_of_mem_take ht)
  have h2 : t ∈ findAllTriples db shop_id search := List.mem_mergeSort.mp h1
  have h3 := List.mem_filter.mp h2
  exact ⟨t, h3.1, h3.2, rfl⟩

theorem mem_findByIdJoinedRows {db : DB} {pid sid : Int}
    {t : ProductRow × Option InventoryRow × Option ShopRow}
    (h : t ∈ findByIdJoinedRows db pid sid) :
    t.1 ∈ db.products ∧ t.1.product_id = pid ∧ t.1.is_deleted = false ∧
    (t.2.2 = none ∨ ∃ s ∈ db.shops, t.2.2 = some s ∧ s.is_deleted = false) := by
  simp only [findByIdJoinedRows] at h
  have hmem := (List.mem_filter.mp h).1
  have hpred := (List.mem_filter.mp h).2
  simp only [List.mem_map] at hmem
  obtain ⟨y, hy, hty⟩ := hmem
  have hy1 := leftJoin_mem hy
  have hy2 := leftJoin_mem hy1.1
  simp only [Bool.and_eq_true, beq_iff_eq, Bool.not_eq_true'] at hpred
  refine ⟨?_, hpred.1.1, hpred.1.2, ?_⟩
  · rw [← hty]; exact hy2.1
  · rcases hy1.2 with hnone | ⟨s, hs, hsome, _⟩
    · left; rw [← hty]; exact hnone
    · right
      refine ⟨s, hs, by rw [← hty]; exact hsome, ?_⟩
      have hsc : shopNotDeletedClause t.2.2 = true := hpred.2
      have hts : t.2.2 = some s := by rw [← hty]; exact hsome
      rw [hts] at hsc
      simpa [shopNotDeletedClause] using hsc

/-! ### Example rows and databases used by witnesses and counterexamples -/

/-- A non-deleted product with id 1. -/
def exProduct : ProductRow :=
  { product_id := 1, name := "Apple", description := some "fruit",
    Base_Price := 100, image_url := none, created_at := 10, deleted_at := none,
    is_deleted := false }

/-- A soft-deleted product with id 1. -/
def exProductDeleted : ProductRow :=
  { product_id := 1, name := "Apple", description := some "fruit",
    Base_Price := 100, image_url := none, created_at := 10, deleted_at := some 5,
    is_deleted := true }

/-- An active inventory row linking product 1 to shop 1. -/
def exInv : InventoryRow :=
  { id := 1, shop_id := 1, product_id := 1, stock_quantity := 5,
    selling_price := 120, unit := "pcs", is_deleted := false, deleted_at := none }

/-- An inactive but not deleted shop with id 1. -/
def exShopInactive : ShopRow :=
  { shop_id := 1, name := "InactiveShop", is_active := false, is_deleted := false }

/-- A soft-deleted shop with id 1. -/
def exShopDeleted : ShopRow :=
  { shop_id := 1, name := "DeadShop", is_active := true, is_deleted := true }

/-- Product 1 available in shop 1, but shop 1 is inactive (not deleted). -/
def dbInactiveShop : DB :=
  { products := [exProduct], inventory := [exInv], shops := [exShopInactive] }

/-- Product 1 available in shop 1, but shop 1 is soft-deleted. -/
def dbDeletedShop : DB :=
  { products := [exProduct], inventory := [exInv], shops := [exShopDeleted] }

/-- The only product with id 1 is soft-deleted. -/
def dbDeletedProduct : DB :=
  { products := [exProductDeleted], inventory := [exInv], shops := [exShopInactive] }

/-- A lone active product with no inventory and no shops. -/
def dbLoneProduct : DB :=
  { products := [exProduct], inventory := [], shops := [] }

/-! ### Claims -/

/-- Claim C1: for every productId, if any statement inside the softDelete
transaction throws, the transaction is rolled back (the observable state is
the pre-transaction state, so no partial soft-delete is ever visible) and the
original error is re-raised unmodified. -/
theorem c1_softDelete_rollback (db : DB) (now productId : Int)
    (f : SoftDeleteFailure) (e : JsError) (h : f.thrown = some e) :
    softDelete db now productId f = (Except.error e, db) := by
  cases f <;> simp_all [SoftDeleteFailure.thrown, softDelete]

/-- Witness for C1: a failure of the product-row update rolls back and
re-raises on a concrete database. -/
theorem c1_witness :
    softDelete dbInactiveShop 99 1 (SoftDeleteFailure.onProductUpdate (JsError.plain "boom")) =
      (Except.error (JsError.plain "boom"), dbInactiveShop) :=
  c1_softDelete_rollback dbInactiveShop 99 1
    (SoftDeleteFailure.onProductUpdate (JsError.plain "boom")) (JsError.plain "boom") rfl

/-- Claim C2: a committed softDelete returns true exactly when some product
row with the given id existed and was previously non-deleted, and the
committed state has every inventory row of that product soft-deleted even
when the answer is false. -/
theorem c2_softDelete_result (db : DB) (now productId : Int) :
    (softDelete db now productId SoftDeleteFailure.noFailure).1 =
      Except.ok (decide (∃ p ∈ db.products, p.product_id = productId ∧ p.is_deleted = false)) ∧
    ∀ i ∈ (softDelete db now productId SoftDeleteFailure.noFailure).2.inventory,
      i.product_id = productId → i.is_deleted = true := by
  constructor
  · have hiff : (0 < (db.products.filter
        (fun p => p.product_id == productId && !p.is_deleted)).length) ↔
        (∃ p ∈ db.products, p.product_id = productId ∧ p.is_deleted = false) := by
      rw [filter_length_pos_iff]
      simp [Bool.and_eq_true, beq_iff_eq, Bool.not_eq_true']
    simp only [softDelete, softDeleteProductStep, softDeleteInventoryStep, List.length_map]
    exact congrArg Except.ok (decide_eq_decide.mpr hiff)
  · intro i hi
    simp only [softDelete, softDeleteProductStep, softDeleteInventoryStep,
      List.mem_map] at hi
    obtain ⟨j, hj, rfl⟩ := hi
    by_cases hc : (j.product_id == productId && !j.is_deleted) = true
    · rw [if_pos hc]
      intro _
      rfl
    · rw [if_neg hc]
      intro hpid
      cases hdel : j.is_deleted with
      | true => rfl
      | false => exact absurd (by simp [beq_iff_eq, hpid, hdel]) hc

/-- Witness for C2: softDelete on a database whose only product is active
answers true and commits the inventory soft-delete. -/
theorem c2_witness :
    (softDelete dbInactiveShop 99 1 SoftDeleteFailure.noFailure).1 =
      Except.ok (decide (∃ p ∈ dbInactiveShop.products, p.product_id = 1 ∧ p.is_deleted = false)) ∧
    ∀ i ∈ (softDelete dbInactiveShop 99 1 SoftDeleteFailure.noFailure).2.inventory,
      i.product_id = 1 → i.is_deleted = true :=
  c2_softDelete_result dbInactiveShop 99 1

/-- Claim C7: update with a payload containing none of name, description and
Base_Price fails with the `No fields to update` error and leaves the state
untouched, returning no row. -/
theorem c7_update_no_fields (db : DB) (productId : Int) (data : UpdateData)
    (h : data.name = none ∧ data.description = none ∧ data.Base_Price = none) :
    update db productId data = (Except.error (JsError.plain "No fields to update"), db) := by
  obtain ⟨h1, h2, h3⟩ := h
  simp [update, updatesNonempty, h1, h2, h3]

/-- Witness for C7: the empty payload on a concrete database. -/
theorem c7_witness :
    update dbInactiveShop 1 { name := none, description := none, Base_Price := none } =
      (Except.error (JsError.plain "No fields to update"), dbInactiveShop) :=
  c7_update_no_fields dbInactiveShop 1 _ ⟨rfl, rfl, rfl⟩

/-- Claim C6: a storage uniqueness violation on the insert of addToInventory
(error number 2627, raised on a duplicate active pair) surfaces as the domain
failure `Product already exists in inventory`, while any storage error whose
number is not 2627 is re-raised as the original, unwrapped error object. -/
theorem c6_addToInventory_errors (db : DB)
    (shopId productId stock_quantity selling_price newId : Int) (unit : String)
    (e : JsError)
    (hdup : ∃ i ∈ db.inventory, i.shop_id = shopId ∧ i.product_id = productId ∧
      i.is_deleted = false)
    (hother : e.errNumber ≠ some 2627) :
    addToInventory (insertInventory db shopId productId stock_quantity selling_price unit newId) =
      Except.error (JsError.plain "Product already exists in inventory") ∧
    addToInventory (InsertOutcome.err e) = Except.error e := by
  constructor
  · have hany : db.inventory.any
        (fun i => i.shop_id == shopId && i.product_id == productId && !i.is_deleted) = true := by
      rw [List.any_eq_true]
      obtain ⟨i, hi, h1, h2, h3⟩ := hdup
      exact ⟨i, hi, by simp [h1, h2, h3]⟩
    simp [insertInventory, hany, addToInventory, JsError.errNumber]
  · have hne : (e.errNumber == some 2627) = false := beq_eq_false_iff_ne.mpr hother
    simp [addToInventory, hne]

/-- Witness for C6: a duplicate active pair on a concrete database, and a
plain connectivity error, each reach the caller in the claimed form. -/
theorem c6_witness :
    addToInventory (insertInventory dbInactiveShop 1 1 3 10 "pcs" 7) =
      Except.error (JsError.plain "Product already exists in inventory") ∧
    addToInventory (InsertOutcome.err (JsError.plain "socket hang up")) =
      Except.error (JsError.plain "socket hang up") :=
  c6_addToInventory_errors dbInactiveShop 1 1 3 10 7 "pcs" (JsError.plain "socket hang up")
    ⟨exInv, by simp [dbInactiveShop], rfl, rfl, rfl⟩ (by simp [JsError.errNumber])

/-- Claim C8: for numeric page below 1 and numeric limit outside [1,100],
the pagination helper does not fail: the effective page is 1, the effective
limit is clamped into [1,100], the offset is computed from the clamped
values (hence 0), and findAll behaves as if called with the clamped values. -/
theorem c8_paginate_clamps (page limit : ℚ) (db : DB) (search : String)
    (shop_id : Option Int) (hp : page < 1) (hl : limit < 1 ∨ 100 < limit) :
    (_paginate page limit).safePage = 1 ∧
    1 ≤ (_paginate page limit).safeLimit ∧
    (_paginate page limit).safeLimit ≤ 100 ∧
    (_paginate page limit).offset =
      ((_paginate page limit).safePage - 1) * (_paginate page limit).safeLimit ∧
    (_paginate page limit).offset = 0 ∧
    findAll db page limit search shop_id =
      findAll db 1 ((_paginate page limit).safeLimit) search shop_id := by
  have hmax : max (1 : ℚ) page = 1 := max_eq_left hp.le
  have hone : (1 : ℚ) ≤ min 100 (max 1 limit) :=
    le_min (by norm_num) (le_max_left 1 limit)
  have hcap : min (100 : ℚ) (max 1 limit) ≤ 100 := min_le_left 100 (max 1 limit)
  have hpag : _paginate page limit =
      { safePage := 1, safeLimit := min 100 (max 1 limit), offset := 0 } := by
    simp [_paginate, hmax]
  have hpag1 : _paginate 1 (min 100 (max 1 limit)) =
      { safePage := 1, safeLimit := min 100 (max 1 limit), offset := 0 } := by
    simp [_paginate, max_eq_right hone, min_eq_right hcap]
  refine ⟨by rw [hpag], by rw [hpag]; exact hone, by rw [hpag]; exact hcap,
    by rw [hpag]; ring, by rw [hpag], ?_⟩
  rw [hpag]
  show findAll db page limit search shop_id = findAll db 1 (min 100 (max 1 limit)) search shop_id
  unfold findAll
  rw [hpag, hpag1]

/-- Witness for C8: page 0 and limit 200 clamp to page 1, limit 100. -/
theorem c8_witness :
    (_paginate 0 200).safePage = 1 ∧
    1 ≤ (_paginate 0 200).safeLimit ∧
    (_paginate 0 200).safeLimit ≤ 100 ∧
    (_paginate 0 200).offset = ((_paginate 0 200).safePage - 1) * (_paginate 0 200).safeLimit ∧
    (_paginate 0 200).offset = 0 ∧
    findAll dbInactiveShop 0 200 "" none =
      findAll dbInactiveShop 1 ((_paginate 0 200).safeLimit) "" none :=
  c8_paginate_clamps 0 200 dbInactiveShop "" none (by norm_num) (Or.inr (by norm_num))

/-- Claim C10: the shopId and search filters of findAll are enabled by
JavaScript truthiness, so shop_id 0 behaves exactly like no shop filter
(the null default) and an empty search string behaves exactly like a query
with no search clause at all. -/
theorem c10_falsy_filters (db : DB) (page limit : ℚ) (search : String)
    (shop_id : Option Int) :
    findAll db page limit search (some 0) = findAll db page limit search none ∧
    findAll db page limit "" shop_id = findAllNoSearch db page limit shop_id := by
  constructor
  · have hpred : findAllPred (some 0) search = findAllPred none search := by
      funext t
      simp [findAllPred, truthyNum]
    simp only [findAll, findAllTriples, hpred]
  · have hpred : findAllPred shop_id "" = findAllNoSearchPred shop_id := by
      funext t
      simp [findAllPred, findAllNoSearchPred, truthyStr]
    simp only [findAll, findAllNoSearch, findAllTriples, hpred]

/-- Claim C9: checkAvailability answers null exactly when no active inventory
row of the pair lives under a non-deleted product and an active, non-deleted
shop; any answer it does give reports existence, availability as
stock_quantity > 0, and the stock quantity of a matching active row (so zero
stock yields exists true, available false, stock 0). -/
theorem c9_checkAvailability (db : DB) (pid sid : Int) :
    (checkAvailability db pid sid = none ↔
      ¬ ∃ i ∈ db.inventory, i.product_id = pid ∧ i.shop_id = sid ∧ i.is_deleted = false ∧
        (∃ p ∈ db.products, p.product_id = pid ∧ p.is_deleted = false) ∧
        (∃ s ∈ db.shops, s.shop_id = sid ∧ s.is_active = true ∧ s.is_deleted = false)) ∧
    ∀ a, checkAvailability db pid sid = some a →
      a.«exists» = true ∧ a.available = decide (0 < a.stock_quantity) ∧
      ∃ i ∈ db.inventory, i.product_id = pid ∧ i.shop_id = sid ∧ i.is_deleted = false ∧
        a.stock_quantity = i.stock_quantity := by
  have key : (∃ t ∈ availTriples db, checkAvailabilityPred pid sid t = true) ↔
      (∃ i ∈ db.inventory, i.product_id = pid ∧ i.shop_id = sid ∧ i.is_deleted = false ∧
        (∃ p ∈ db.products, p.product_id = pid ∧ p.is_deleted = false) ∧
        (∃ s ∈ db.shops, s.shop_id = sid ∧ s.is_active = true ∧ s.is_deleted = false)) := by
    constructor
    · rintro ⟨t, ht, hp⟩
      obtain ⟨hi, hpp, hss⟩ := mem_availTriples.mp ht
      simp only [checkAvailabilityPred, Bool.and_eq_true, beq_iff_eq,
        Bool.not_eq_true'] at hp
      obtain ⟨⟨⟨⟨⟨⟨⟨hjoin1, hjoin2⟩, hpid⟩, hsid⟩, hpdel⟩, hidel⟩, hact⟩, hsdel⟩ := hp
      refine ⟨t.1, hi, ?_, hsid, hidel, ⟨t.2.1, hpp, hpid, hpdel⟩,
        ⟨t.2.2, hss, ?_, hact, hsdel⟩⟩
      · rw [← hjoin1]; exact hpid
      · rw [hjoin2]; exact hsid
    · rintro ⟨i, hi, hipid, hisid, hidel, ⟨p, hp, hppid, hpdel⟩, ⟨s, hs, hssid, hact, hsdel⟩⟩
      refine ⟨(i, p, s), mem_availTriples.mpr ⟨hi, hp, hs⟩, ?_⟩
      simp [checkAvailabilityPred, hipid, hisid, hidel, hppid, hpdel, hssid, hact, hsdel]
  constructor
  · rw [checkAvailability_none_iff]
    rw [← key]
    simp only [not_exists, not_and]
  · intro a ha
    simp only [checkAvailability] at ha
    cases hh : ((availTriples db).filter (checkAvailabilityPred pid sid)).head? with
    | none => rw [hh] at ha; cases ha
    | some t =>
      rw [hh] at ha
      have ha2 : a =
          { «exists» := true, available := decide (0 < t.1.stock_quantity),
            stock_quantity := t.1.stock_quantity } := by
        cases ha; rfl
      have ht : t ∈ (availTriples db).filter (checkAvailabilityPred pid sid) := by
        obtain ⟨ys, hys⟩ := List.head?_eq_some_iff.mp hh
        rw [hys]; exact List.mem_cons_self t ys
      have hmem := (List.mem_filter.mp ht).1
      have hpred := (List.mem_filter.mp ht).2
      obtain ⟨hi, _, _⟩ := mem_availTriples.mp hmem
      simp only [checkAvailabilityPred, Bool.and_eq_true, beq_iff_eq,
        Bool.not_eq_true'] at hpred
      obtain ⟨⟨⟨⟨⟨⟨⟨hjoin1, hjoin2⟩, hpid⟩, hsid⟩, hpdel⟩, hidel⟩, hact⟩, hsdel⟩ := hpred
      subst ha2
      refine ⟨rfl, rfl, t.1, hi, ?_, hsid, hidel, rfl⟩
      rw [← hjoin1]; exact hpid

/-- Witness for C9: on a database with no inventory at all the answer is null. -/
theorem c9_witness : checkAvailability dbLoneProduct 1 1 = none :=
  (c9_checkAvailability dbLoneProduct 1 1).1.mpr (by decide)

/-- Claim C3: a soft-deleted product is invisible: it contributes no row to
findAll, findById answers null for it in both modes, checkAvailability
answers null for it, and update leaves the state untouched and returns null
(or the no-fields error when the payload is empty). -/
theorem c3_deleted_product_invisible (db : DB) (pid : Int) (page limit : ℚ)
    (search : String) (shopFilter shopId : Option Int) (sid : Int) (data : UpdateData)
    (h : ∀ p ∈ db.products, p.product_id = pid → p.is_deleted = true) :
    (∀ r ∈ (findAll db page limit search shopFilter).products, r.product_id ≠ pid) ∧
    findById db pid shopId = none ∧
    checkAvailability db pid sid = none ∧
    (update db pid data).2 = db ∧
    ((update db pid data).1 = Except.ok none ∨
      (update db pid data).1 = Except.error (JsError.plain "No fields to update")) := by
  have hfilnil : db.products.filter (fun p => p.product_id == pid && !p.is_deleted) = [] := by
    rw [List.filter_eq_nil_iff]
    intro p hp
    simp only [Bool.and_eq_true, beq_iff_eq, Bool.not_eq_true', not_and]
    intro hpid
    rw [h p hp hpid]
    simp
  refine ⟨?_, ?_, ?_, ?_, ?_⟩
  · intro r hr
    obtain ⟨t, hmem, hpred, rfl⟩ := mem_findAll_products hr
    obtain ⟨hp, _, _⟩ := mem_allTriples.mp hmem
    intro hpid
    have hpid2 : t.1.product_id = pid := hpid
    simp only [findAllPred, Bool.and_eq_true, Bool.not_eq_true'] at hpred
    obtain ⟨⟨⟨⟨⟨⟨⟨_, _⟩, hnd⟩, _⟩, _⟩, _⟩, _⟩, _⟩ := hpred
    rw [h t.1 hp hpid2] at hnd
    cases hnd
  · unfold findById
    by_cases hb : truthyNum shopId = true
    · rw [if_pos hb]
      have hnil : findByIdJoinedRows db pid (shopId.getD 0) = [] := by
        rcases hne : findByIdJoinedRows db pid (shopId.getD 0) with _ | ⟨t, ts⟩
        · rfl
        · exfalso
          have ht : t ∈ findByIdJoinedRows db pid (shopId.getD 0) := by
            rw [hne]; exact List.mem_cons_self t ts
          obtain ⟨hp, hpid, hdel, _⟩ := mem_findByIdJoinedRows ht
          rw [h t.1 hp hpid] at hdel
          cases hdel
      rw [hnil]
      rfl
    · rw [if_neg hb]
      rw [hfilnil]
      rfl
  · rw [checkAvailability_none_iff]
    intro t ht hpred
    obtain ⟨_, hpp, _⟩ := mem_availTriples.mp ht
    simp only [checkAvailabilityPred, Bool.and_eq_true, beq_iff_eq,
      Bool.not_eq_true'] at hpred
    obtain ⟨⟨⟨⟨⟨⟨⟨_, _⟩, hpid⟩, _⟩, hpdel⟩, _⟩, _⟩, _⟩ := hpred
    rw [h t.2.1 hpp hpid] at hpdel
    cases hpdel
  · unfold update
    by_cases hd : updatesNonempty data = true
    · rw [if_pos hd]
      have hmap : db.products.map
          (fun p => if p.product_id == pid && !p.is_deleted then applyUpdate data p else p) =
          db.products := by
        have hcongr : ∀ p ∈ db.products,
            (if p.product_id == pid && !p.is_deleted then applyUpdate data p else p) = id p := by
          intro p hp
          rw [if_neg]
          · rfl
          · simp only [Bool.and_eq_true, beq_iff_eq, Bool.not_eq_true', not_and]
            intro hpid
            rw [h p hp hpid]
            simp
        rw [List.map_congr_left hcongr, List.map_id]
      simp only [hmap]
    · rw [if_neg hd]
  · unfold update
    by_cases hd : updatesNonempty data = true
    · rw [if_pos hd]
      left
      rw [hfilnil]
      rfl
    · rw [if_neg hd]
      right
      rfl

/-- A payload renaming the product, used by the C3 witness. -/
def exPatch : UpdateData :=
  { name := some "Pear", description := none, Base_Price := none }

/-- Witness for C3: a database whose only product row with id 1 is deleted. -/
theorem c3_witness :
    (∀ r ∈ (findAll dbDeletedProduct 1 20 "" none).products, r.product_id ≠ 1) ∧
    findById dbDeletedProduct 1 none = none ∧
    checkAvailability dbDeletedProduct 1 1 = none ∧
    (update dbDeletedProduct 1 exPatch).2 = dbDeletedProduct ∧
    ((update dbDeletedProduct 1 exPatch).1 = Except.ok none ∨
      (update dbDeletedProduct 1 exPatch).1 = Except.error (JsError.plain "No fields to update")) :=
  c3_deleted_product_invisible dbDeletedProduct 1 1 20 "" none none 1 exPatch (by decide)

/-- The joined row that findById produces from the inactive shop of
`dbInactiveShop`. -/
def c4Row : JoinedRow :=
  { product_id := 1, name := "Apple", description := some "fruit",
    Base_Price := 100, image_url := none, created_at := 10,
    inventory_id := some 1, shop_id := some 1, stock_quantity := some 5,
    selling_price := some 120, unit := some "pcs", shop_name := some "InactiveShop" }

/-- Counterexample to C4 as stated: in `dbInactiveShop` every shop is inactive
(and not deleted), yet findById with a shop id returns a row carrying that
shop's name and its inventory data — the findById query never checks
`s.is_active`. -/
theorem c4_counterexample :
    (∀ s ∈ dbInactiveShop.shops, s.is_active = false ∧ s.is_deleted = false) ∧
    findById dbInactiveShop 1 (some 1) = some (FindByIdResult.withShop c4Row) ∧
    c4Row.shop_name = some "InactiveShop" ∧ c4Row.stock_quantity = some 5 := by
  decide

/-- Claim C4 amended: findAll and checkAvailability admit only shops with
is_active = true and is_deleted = false, but findById with a shopId only
excludes soft-deleted shops — an inactive, non-deleted shop still contributes
shop and inventory data there. -/
theorem c4_amended_shop_participation (db : DB) (page limit : ℚ) (search : String)
    (shopFilter : Option Int) (pid sid pid2 : Int) (shopId : Option Int) :
    (∀ r ∈ (findAll db page limit search shopFilter).products,
      ∃ s ∈ db.shops, s.is_active = true ∧ s.is_deleted = false ∧
        r.shop_name = some s.name) ∧
    (checkAvailability db pid sid = none ∨
      ∃ s ∈ db.shops, s.shop_id = sid ∧ s.is_active = true ∧ s.is_deleted = false) ∧
    (findById db pid2 shopId = none ∨
      (∃ rb, findById db pid2 shopId = some (FindByIdResult.bare rb)) ∨
      (∃ r, findById db pid2 shopId = some (FindByIdResult.withShop r) ∧
        (r.shop_name = none ∨
          ∃ s ∈ db.shops, s.is_deleted = false ∧ r.shop_name = some s.name))) := by
  refine ⟨?_, ?_, ?_⟩
  · intro r hr
    obtain ⟨t, hmem, hpred, rfl⟩ := mem_findAll_products hr
    obtain ⟨_, _, hs⟩ := mem_allTriples.mp hmem
    simp only [findAllPred, Bool.and_eq_true, Bool.not_eq_true'] at hpred
    obtain ⟨⟨⟨⟨⟨⟨⟨_, _⟩, _⟩, _⟩, hsdel⟩, hact⟩, _⟩, _⟩ := hpred
    exact ⟨t.2.2, hs, hact, hsdel, rfl⟩
  · rcases hca : checkAvailability db pid sid with _ | a
    · exact Or.inl rfl
    · right
      simp only [checkAvailability] at hca
      cases hh : ((availTriples db).filter (checkAvailabilityPred pid sid)).head? with
      | none => rw [hh] at hca; cases hca
      | some t =>
        have ht : t ∈ (availTriples db).filter (checkAvailabilityPred pid sid) := by
          obtain ⟨ys, hys⟩ := List.head?_eq_some_iff.mp hh
          rw [hys]; exact List.mem_cons_self t ys
        obtain ⟨_, _, hs⟩ := mem_availTriples.mp (List.mem_filter.mp ht).1
        have hpred := (List.mem_filter.mp ht).2
        simp only [checkAvailabilityPred, Bool.and_eq_true, beq_iff_eq,
          Bool.not_eq_true'] at hpred
        obtain ⟨⟨⟨⟨⟨⟨⟨_, hjoin2⟩, _⟩, hsid⟩, _⟩, _⟩, hact⟩, hsdel⟩ := hpred
        refine ⟨t.2.2, hs, ?_, hact, hsdel⟩
        rw [hjoin2]; exact hsid
  · unfold findById
    by_cases hb : truthyNum shopId = true
    · rw [if_pos hb]
      cases hh : (findByIdJoinedRows db pid2 (shopId.getD 0)).head? with
      | none => exact Or.inl rfl
      | some t =>
        right; right
        refine ⟨mkDetailRow t, rfl, ?_⟩
        have ht : t ∈ findByIdJoinedRows db pid2 (shopId.getD 0) := by
          obtain ⟨ys, hys⟩ := List.head?_eq_some_iff.mp hh
          rw [hys]; exact List.mem_cons_self t ys
        obtain ⟨_, _, _, hshop⟩ := mem_findByIdJoinedRows ht
        rcases hshop with hnone | ⟨s, hs, hsome, hsdel⟩
        · left
          show t.2.2.map (fun s => s.name) = none
          rw [hnone]; rfl
        · right
          refine ⟨s, hs, hsdel, ?_⟩
          show t.2.2.map (fun s => s.name) = some s.name
          rw [hsome]; rfl
    · rw [if_neg hb]
      cases hh : (db.products.filter (fun p => p.product_id == pid2 && !p.is_deleted)).head? with
      | none => exact Or.inl rfl
      | some p =>
        right; left
        exact ⟨_, rfl⟩

/-- Counterexample to C5 as stated: in `dbDeletedShop` product 1 is not
deleted, yet findById with shop 1 returns null, because the only joined row
carries a soft-deleted shop and the WHERE clause discards it.  The result is
not independent of the state of the shop row. -/
theorem c5_counterexample :
    (∃ p ∈ dbDeletedShop.products, p.product_id = 1 ∧ p.is_deleted = false) ∧
    truthyNum (some 1) = true ∧
    findById dbDeletedShop 1 (some 1) = none := by
  decide

/-- Claim C5 amended: with a truthy shopId, findById returns a composite
record with the product fields populated whenever the product is not deleted,
provided no shop row for that shop id is soft-deleted; an active inventory
row pointing at a soft-deleted shop row makes the query return null instead. -/
theorem c5_amended_findById_nonnull (db : DB) (pid sid : Int)
    (hsid : sid ≠ 0)
    (hp : ∃ p ∈ db.products, p.product_id = pid ∧ p.is_deleted = false)
    (hshops : ∀ s ∈ db.shops, s.shop_id = sid → s.is_deleted = false) :
    ∃ r, findById db pid (some sid) = some (FindByIdResult.withShop r) ∧
      r.product_id = pid := by
  have hb : truthyNum (some sid) = true := by simp [truthyNum, hsid]
  obtain ⟨p, hpmem, hppid, hpdel⟩ := hp
  obtain ⟨ob, hpi, hobprop⟩ := @leftJoin_exists ProductRow InventoryRow db.products db.inventory
    (fun p i => p.product_id == i.product_id && i.shop_id == sid && !i.is_deleted) p hpmem
  obtain ⟨ob2, hpis, hob2prop⟩ := @leftJoin_exists (ProductRow × Option InventoryRow) ShopRow
    (leftJoin db.products db.inventory
      (fun p i => p.product_id == i.product_id && i.shop_id == sid && !i.is_deleted))
    db.shops invShopJoinCond (p, ob) hpi
  have hshopdel : ∀ s, ob2 = some s → s.is_deleted = false := by
    intro s hob2
    have hprop := hob2prop s hob2
    obtain ⟨i, hob, hish⟩ := invShopJoinCond_some hprop.2
    have hicond := hobprop i hob
    simp only [Bool.and_eq_true, beq_iff_eq] at hicond
    exact hshops s hprop.1 (by rw [← hish]; exact hicond.2.1.2)
  have hpredmem : (p, ob, ob2) ∈ findByIdJoinedRows db pid sid := by
    unfold findByIdJoinedRows
    apply List.mem_filter.mpr
    refine ⟨List.mem_map.mpr ⟨((p, ob), ob2), hpis, rfl⟩, ?_⟩
    simp only [Bool.and_eq_true, beq_iff_eq, Bool.not_eq_true']
    exact ⟨⟨hppid, hpdel⟩, shopNotDeletedClause_of ob2 hshopdel⟩
  rcases hrows : (findByIdJoinedRows db pid sid).head? with _ | t0
  · rw [List.head?_eq_none_iff] at hrows
    rw [hrows] at hpredmem
    cases hpredmem
  · have ht0 : t0 ∈ findByIdJoinedRows db pid sid := by
      obtain ⟨ys, hys⟩ := List.head?_eq_some_iff.mp hrows
      rw [hys]; exact List.mem_cons_self t0 ys
    obtain ⟨_, hpid0, _, _⟩ := mem_findByIdJoinedRows ht0
    refine ⟨mkDetailRow t0, ?_, hpid0⟩
    unfold findById
    rw [if_pos hb]
    simp only [Option.getD_some]
    rw [hrows]
    rfl

/-- Witness for C5 amended: a lone active product, no shops at all. -/
theorem c5_witness :
    ∃ r, findById dbLoneProduct 1 (some 1) = some (FindByIdResult.withShop r) ∧
      r.product_id = 1 :=
  c5_amended_findById_nonnull dbLoneProduct 1 1 (by decide) (by decide) (by decide)
